import Mathlib

/-! ProconIp adapter (src/main.ts) - shallow embedding.

The adapter polls a pool controller, diffs each snapshot against the
previously accepted baseline, materializes ioBroker objects on first
contact, and dispatches platform write intents as device commands.  The
definitions below translate the reconciliation loop (the poll callback in
onReady), the store-write helpers (setDataState, setRelayDataState,
updateAdvancedSysInfoStates, updateObjectCommonName), the object
materializer (setDataObjectNotExists / setRelayDataObject) and the four
state-change handlers (relayToggleAuto, relayToggleOnOff, setDosageTimer,
setRelayTimer).  Objects of the external procon-ip library (GetStateData,
GetStateDataSysInfo, the transport services) are modelled at their
interface, as the specification prescribes for external collaborators. -/

namespace ProconIp

/-- Category string constant of the procon-ip library's GetStateCategory enum. -/
def GetStateCategory.RELAYS : String := "relays"

/-- Category string constant for the external relay bank. -/
def GetStateCategory.EXTERNAL_RELAYS : String := "externalRelays"

/-- Category string constant for temperature sensors. -/
def GetStateCategory.TEMPERATURES : String := "temperatures"

/-- One data object of a GetState.csv snapshot (procon-ip GetStateDataObject),
restricted to the fields the adapter reads. -/
structure GetStateDataObject where
  id : Nat
  category : String
  categoryId : Nat
  label : String
  unit : String
  displayValue : String
  value : Int
  active : Bool
deriving DecidableEq

/-- System-info block of a snapshot (procon-ip GetStateDataSysInfo), modelled
at its interface: `pairs` is the key/value view returned by
toArrayOfObjects() (also backing the dynamic sysInfo[key] lookup),
`dosageControl` is the raw bitmask, and the Bool fields are the results of
the derived accessor methods (isPhPlusDosageEnabled() and so on). -/
structure GetStateDataSysInfo where
  pairs : List (String × String)
  dosageControl : Nat
  phPlusDosageEnabled : Bool
  phMinusDosageEnabled : Bool
  chlorineDosageEnabled : Bool
  electrolysis : Bool
  extRelaysEnabled : Bool
deriving DecidableEq

/-- Dynamic property lookup `this._stateData.sysInfo[info.key]`; `none` stands
for the JavaScript value `undefined`. -/
def GetStateDataSysInfo.lookup (si : GetStateDataSysInfo) (key : String) : Option String :=
  (si.pairs.find? (fun kv => kv.fst == key)).map (fun kv => kv.snd)

/-- One full snapshot (procon-ip GetStateData): sys info plus data objects,
together with the configured dosage-control channel ids exposed by
getChlorineDosageControlId / getPhMinusDosageControlId /
getPhPlusDosageControlId. -/
structure GetStateData where
  sysInfo : GetStateDataSysInfo
  objects : List GetStateDataObject
  chlorineDosageControlId : Nat
  phMinusDosageControlId : Nat
  phPlusDosageControlId : Nat
deriving DecidableEq

/-- getDataObject(id): the snapshot's data object with the given id, if any;
`none` stands for `undefined`. -/
def GetStateData.getDataObject (d : GetStateData) (id : Nat) : Option GetStateDataObject :=
  d.objects.find? (fun o => o.id == id)

/-- Interface model of the library predicate isDosageControl(relayId): per the
specification, a relay id is a dosage control when it matches one of the
three configured dosage-control channel ids. -/
def GetStateData.isDosageControl (d : GetStateData) (relayId : Nat) : Bool :=
  relayId == d.chlorineDosageControlId || relayId == d.phMinusDosageControlId ||
    relayId == d.phPlusDosageControlId

/-- The adapter's `_objectStateFields` constant (main.ts line 41). -/
def objectStateFields : List String :=
  ["value", "category", "label", "unit", "displayValue", "active"]

/-- Object.keys(obj) for a GetStateDataObject: the object's own enumerable
property names.  Only membership of the six tracked fields matters to the
adapter (the remaining keys are filtered out or skipped). -/
def objectKeys : List String :=
  ["id", "category", "categoryId", "label", "unit", "displayValue", "value", "active"]

/-- A JavaScript field value of a data object. -/
inductive FieldVal where
  | num (n : Int)
  | str (s : String)
  | boolean (b : Bool)
deriving DecidableEq

/-- Dynamic field access obj[field] for the keys the adapter touches. -/
def GetStateDataObject.fieldVal (o : GetStateDataObject) : String → Option FieldVal
  | "id" => some (FieldVal.num (Int.ofNat o.id))
  | "category" => some (FieldVal.str o.category)
  | "categoryId" => some (FieldVal.num (Int.ofNat o.categoryId))
  | "label" => some (FieldVal.str o.label)
  | "unit" => some (FieldVal.str o.unit)
  | "displayValue" => some (FieldVal.str o.displayValue)
  | "value" => some (FieldVal.num o.value)
  | "active" => some (FieldVal.boolean o.active)
  | _ => none

/-- One store write issued during a poll cycle (a setStateAsync call). -/
inductive StoreWrite where
  | sysInfoState (key : String) (value : String)
  | advancedSysInfo (key : String) (value : Bool)
  | objField (category : String) (categoryId : Nat) (field : String) (value : FieldVal)
  | relayAuto (category : String) (categoryId : Nat) (obj : GetStateDataObject)
  | relayOnOff (category : String) (categoryId : Nat) (obj : GetStateDataObject)
deriving DecidableEq

/-- Whether setDataState / setDataObjectNotExists treat the object as a relay:
category is the internal relay bank, or the external bank while the
baseline sys info reports external relays enabled (main.ts lines 628-634).
The values written for the relay's auto/onOff switches are produced by the
external RelayDataInterpreter from the object, so the writes carry the
object itself. -/
def relayWriteGuard (sd : GetStateData) (obj : GetStateDataObject) : Bool :=
  obj.category == GetStateCategory.RELAYS ||
    (obj.category == GetStateCategory.EXTERNAL_RELAYS && sd.sysInfo.extRelaysEnabled)

/-- setDataState(obj) (main.ts lines 617-635): write every key of the object
that occurs in `_objectStateFields`, then the relay auto/onOff states when
the relay guard holds.  `sd` is `this._stateData`, the baseline snapshot
(still the previous cycle's data at this point of the poll callback). -/
def setDataState (sd : GetStateData) (obj : GetStateDataObject) : List StoreWrite :=
  (objectKeys.filter (fun f => objectStateFields.contains f)).filterMap
    (fun f => (obj.fieldVal f).map
      (fun v => StoreWrite.objField obj.category obj.categoryId f v)) ++
  (if relayWriteGuard sd obj then
    [StoreWrite.relayAuto obj.category obj.categoryId obj,
     StoreWrite.relayOnOff obj.category obj.categoryId obj]
   else [])

/-- JavaScript Array.prototype.indexOf, with `none` for -1. -/
def jsIndexOf (l : List Nat) (x : Nat) : Option Nat :=
  match l with
  | [] => none
  | y :: ys => if y == x then some 0 else (jsIndexOf ys x).map (fun i => i + 1)

/-- Everything the poll callback does for one emitted data object: the object's
id, whether a rename propagation (updateObjectCommonName) was triggered,
and the store writes issued by setDataState. -/
structure ObjAction where
  objId : Nat
  renamed : Bool
  writes : List StoreWrite
deriving DecidableEq

/-- The body of the `data.objects.forEach` loop of the poll callback
(main.ts lines 124-159) for a single object: compute the force-set index
and the baseline object, and when the update condition
`!bootstrapped || forceObjStateUpdate >= 0 || (prev && prev.value != obj.value)`
holds, emit the action and apply the splice guarded by the truthiness of
`this._forceUpdate[forceObjStateUpdate]` (the stored id itself).  Reading
`.label` of an `undefined` baseline object throws a TypeError, modelled as
`Except.error`. -/
def pollObject (bootstrapped : Bool) (stateData : GetStateData) (force : List Nat)
    (obj : GetStateDataObject) : Except String (Option ObjAction × List Nat) :=
  let idx := jsIndexOf force obj.id
  let prevObj := stateData.getDataObject obj.id
  let changed := match prevObj with
    | some p => p.value != obj.value
    | none => false
  if !bootstrapped || idx.isSome || changed then
    match prevObj with
    | none => Except.error "TypeError: cannot read properties of undefined"
    | some p =>
      let act : ObjAction :=
        { objId := obj.id
          renamed := p.label != obj.label
          writes := setDataState stateData obj }
      let forceAfter := match idx with
        | some i => if ((force.get? i).getD 0) != 0 then force.eraseIdx i else force
        | none => force
      Except.ok (some act, forceAfter)
  else
    Except.ok (none, force)

/-- The whole `data.objects.forEach` loop, threading the force-update list and
collecting the emitted actions; a thrown TypeError aborts the loop. -/
def pollObjects (bootstrapped : Bool) (stateData : GetStateData) :
    List Nat → List GetStateDataObject → Except String (List ObjAction × List Nat)
  | force, [] => Except.ok ([], force)
  | force, obj :: rest =>
    match pollObject bootstrapped stateData force obj with
    | Except.error e => Except.error e
    | Except.ok (a, force') =>
      match pollObjects bootstrapped stateData force' rest with
      | Except.error e => Except.error e
      | Except.ok (acts, forceEnd) =>
        Except.ok ((match a with | some act => act :: acts | none => acts), forceEnd)

/-- The sys-info forEach of the poll callback (main.ts lines 107-119): a write
for each key/value pair whose value differs (strict !==) from the baseline
lookup, or every pair before bootstrap. -/
def sysInfoWrites (bootstrapped : Bool) (prev : GetStateDataSysInfo)
    (cur : GetStateDataSysInfo) : List StoreWrite :=
  cur.pairs.filterMap (fun kv =>
    if !bootstrapped || !(prev.lookup kv.fst == some kv.snd) then
      some (StoreWrite.sysInfoState kv.fst kv.snd)
    else none)

/-- updateAdvancedSysInfoStates(sysInfo) (main.ts lines 343-381): emit the four
derived boolean writes as one batch when the dosage-control bitmask differs
from the baseline or the adapter is not yet bootstrapped. -/
def updateAdvancedSysInfoStates (bootstrapped : Bool) (prev : GetStateDataSysInfo)
    (si : GetStateDataSysInfo) : List StoreWrite :=
  if !bootstrapped || si.dosageControl != prev.dosageControl then
    [StoreWrite.advancedSysInfo "phPlusDosageEnabled" si.phPlusDosageEnabled,
     StoreWrite.advancedSysInfo "phMinusDosageEnabled" si.phMinusDosageEnabled,
     StoreWrite.advancedSysInfo "chlorineDosageEnabled" si.chlorineDosageEnabled,
     StoreWrite.advancedSysInfo "electrolysis" si.electrolysis]
  else []

/-- Result of one complete poll callback run (main.ts lines 102-165). -/
structure CycleOutcome where
  sysWrites : List StoreWrite
  advancedWrites : List StoreWrite
  objActions : List ObjAction
  forceAfter : List Nat
  newBaseline : GetStateData
deriving DecidableEq

/-- One poll cycle: sys-info writes, the advanced batch, the object loop, and
the baseline replacement `this._stateData = data` at the end.  A TypeError
thrown inside the object forEach aborts the callback before the baseline is
replaced. -/
def pollCycle (bootstrapped : Bool) (stateData : GetStateData) (force : List Nat)
    (data : GetStateData) : Except String CycleOutcome :=
  match pollObjects bootstrapped stateData force data.objects with
  | Except.error e => Except.error e
  | Except.ok (acts, forceEnd) =>
    Except.ok
      { sysWrites := sysInfoWrites bootstrapped stateData.sysInfo data.sysInfo
        advancedWrites := updateAdvancedSysInfoStates bootstrapped stateData.sysInfo data.sysInfo
        objActions := acts
        forceAfter := forceEnd
        newBaseline := data }

/-! Command dispatcher (onStateChange handlers). -/

/-- A JavaScript state payload value (ioBroker.State.val). -/
inductive StateVal where
  | boolVal (x : Bool)
  | numVal (x : Int)
deriving DecidableEq

/-- JavaScript truthiness of a state value. -/
def StateVal.truthy : StateVal → Bool
  | StateVal.boolVal x => x
  | StateVal.numVal x => x != 0

/-- An ioBroker state as returned by getStateAsync. -/
structure IoState where
  val : StateVal
  ack : Bool
deriving DecidableEq

/-- An ioBroker object as returned by getObjectAsync; the adapter stores the
originating GetStateDataObject as `native`, of which only id and label are
read by the handlers. -/
structure IoObject where
  nativeId : Nat
  nativeLabel : String
deriving DecidableEq

deriving instance DecidableEq for Except

/-- Outcome of a call into the device access layer: the call either threw
synchronously, or returned a promise that eventually settles with `res`. -/
inductive CallOutcome where
  | thrown (msg : String)
  | promised (res : Except String Int)
deriving DecidableEq

/-- A command transmitted to the device access layer. -/
inductive DeviceCommand where
  | setAuto (obj : GetStateDataObject)
  | setOn (obj : GetStateDataObject)
  | setOff (obj : GetStateDataObject)
  | setChlorineDosage (seconds : StateVal)
  | setPhMinusDosage (seconds : StateVal)
  | setPhPlusDosage (seconds : StateVal)
  | setTimer (relayId : Nat) (seconds : StateVal)
deriving DecidableEq

/-- Observable outcome of one handler invocation: the promise the caller of
the handler sees (ok with the handler's numeric result, 0 for void), the
device-access calls made, and the force-update list after the handler. -/
structure DispatchOutcome where
  result : Except String Int
  commands : List DeviceCommand
  forceAfter : List Nat
deriving DecidableEq

/-- relayToggleAuto (main.ts lines 231-264).  The onOff companion state is
read first; a missing state or store object throws; a missing baseline data
object makes the `.id` access throw.  After the force push the CGI call is
made inside try/catch, but its promise is returned without await, so only a
synchronous throw is caught (yielding -1) while a rejected promise is
passed through to the caller. -/
def relayToggleAuto (stateData : GetStateData) (force : List Nat)
    (onOffState : Option IoState) (storeObj : Option IoObject)
    (stateVal : StateVal) (transport : CallOutcome) : DispatchOutcome :=
  match onOffState with
  | none =>
    { result := Except.error "Cannot get onOff state to toggle"
      commands := [], forceAfter := force }
  | some onOff =>
    match storeObj with
    | none =>
      { result := Except.error "Cannot handle state change for non-existent object"
        commands := [], forceAfter := force }
    | some obj =>
      match stateData.getDataObject obj.nativeId with
      | none =>
        { result := Except.error "TypeError: cannot read properties of undefined"
          commands := [], forceAfter := force }
      | some gso =>
        let cmd := if stateVal.truthy then DeviceCommand.setAuto gso
          else if onOff.val.truthy then DeviceCommand.setOn gso
          else DeviceCommand.setOff gso
        match transport with
        | CallOutcome.thrown _ =>
          { result := Except.ok (-1), commands := [cmd], forceAfter := force ++ [gso.id] }
        | CallOutcome.promised res =>
          { result := res, commands := [cmd], forceAfter := force ++ [gso.id] }

/-- relayToggleOnOff (main.ts lines 266-289).  The CGI call is awaited inside
try/catch, so both a synchronous throw and a rejected promise are caught
and the handler completes normally. -/
def relayToggleOnOff (stateData : GetStateData) (force : List Nat)
    (storeObj : Option IoObject) (stateVal : StateVal)
    (transport : CallOutcome) : DispatchOutcome :=
  match storeObj with
  | none =>
    { result := Except.error "Cannot handle state change for non-existent object"
      commands := [], forceAfter := force }
  | some obj =>
    match stateData.getDataObject obj.nativeId with
    | none =>
      { result := Except.error "TypeError: cannot read properties of undefined"
        commands := [], forceAfter := force }
    | some gso =>
      let cmd := if stateVal.truthy then DeviceCommand.setOn gso else DeviceCommand.setOff gso
      { result := Except.ok 0, commands := [cmd], forceAfter := force ++ [gso.id] }

/-- setDosageTimer (main.ts lines 291-318).  The physical channel id is the
categoryId plus 8 for the external relay bank; the intent is routed by
comparing that id against the three configured dosage-control ids in
order (chlorine, pH minus, pH plus); no match issues no command.  The
awaited dosage call sits inside try/catch, so the handler always completes
normally once identity resolution has succeeded. -/
def setDosageTimer (stateData : GetStateData) (force : List Nat)
    (storeObj : Option IoObject) (stateVal : StateVal)
    (transport : CallOutcome) : DispatchOutcome :=
  match storeObj with
  | none =>
    { result := Except.error "Cannot handle state change for non-existent object"
      commands := [], forceAfter := force }
  | some obj =>
    match stateData.getDataObject obj.nativeId with
    | none =>
      { result := Except.error "TypeError: cannot read properties of undefined"
        commands := [], forceAfter := force }
    | some gso =>
      let relayId := gso.categoryId +
        (if gso.category == GetStateCategory.EXTERNAL_RELAYS then 8 else 0)
      let cmds :=
        if relayId == stateData.chlorineDosageControlId then
          [DeviceCommand.setChlorineDosage stateVal]
        else if relayId == stateData.phMinusDosageControlId then
          [DeviceCommand.setPhMinusDosage stateVal]
        else if relayId == stateData.phPlusDosageControlId then
          [DeviceCommand.setPhPlusDosage stateVal]
        else []
      { result := Except.ok 0, commands := cmds, forceAfter := force ++ [gso.id] }

/-- setRelayTimer (main.ts lines 320-341): channel id is categoryId plus 9 for
the external bank, else plus 1; the awaited setTimer call sits inside
try/catch, so the handler always completes normally after resolution. -/
def setRelayTimer (stateData : GetStateData) (force : List Nat)
    (storeObj : Option IoObject) (stateVal : StateVal)
    (transport : CallOutcome) : DispatchOutcome :=
  match storeObj with
  | none =>
    { result := Except.error "Cannot handle state change for non-existent object"
      commands := [], forceAfter := force }
  | some obj =>
    match stateData.getDataObject obj.nativeId with
    | none =>
      { result := Except.error "TypeError: cannot read properties of undefined"
        commands := [], forceAfter := force }
    | some gso =>
      let relayId := gso.categoryId +
        (if gso.category == GetStateCategory.EXTERNAL_RELAYS then 9 else 1)
      { result := Except.ok 0
        commands := [DeviceCommand.setTimer relayId stateVal]
        forceAfter := force ++ [gso.id] }

/-! Object materializer (setDataObjectNotExists / setRelayDataObject). -/

/-- smartName metadata attached to a created state. -/
structure SmartName where
  de : String
  en : String
  smartType : String
deriving DecidableEq

/-- The `common` block of a created ioBroker state; `none` for smartName
models the empty object `\x7b\x7d`, `none` for unit models an absent key. -/
structure StateCommon where
  name : String
  type : String
  role : String
  read : Bool
  write : Bool
  smartName : Option SmartName
  unit : Option String
deriving DecidableEq

/-- One state created under the object's channel, identified by its path
suffix. -/
structure CreatedState where
  sub : String
  common : StateCommon
deriving DecidableEq

/-- Whether `pat` is a prefix of `hay` (character lists). -/
def charsHavePre : List Char → List Char → Bool
  | [], _ => true
  | _ :: _, [] => false
  | c :: cs, d :: ds => c == d && charsHavePre cs ds

/-- Whether `pat` occurs contiguously inside `hay`. -/
def charsContain (pat : List Char) : List Char → Bool
  | [] => charsHavePre pat []
  | c :: cs => charsHavePre pat (c :: cs) || charsContain pat cs

/-- ASCII lower-casing of one character, as case folding applies to the
all-ASCII patterns of the light/switch heuristic. -/
def lowerChar (c : Char) : Char :=
  if c.toNat ≥ 65 && c.toNat ≤ 90 then Char.ofNat (c.toNat + 32) else c

/-- The light/switch heuristic of setRelayDataObject (main.ts line 542): the
case-insensitive regular expression light|bulb|licht|leucht tested against
the relay's label. -/
def isLight (label : String) : Bool :=
  ["light", "bulb", "licht", "leucht"].any
    (fun pat => charsContain pat.toList (label.toList.map lowerChar))

/-- The per-field `common` block built by the Object.keys switch of
setDataObjectNotExists (main.ts lines 481-515); `none` models the
`continue` of the default branch. -/
def fieldCommon (obj : GetStateDataObject) (field : String) : Option StateCommon :=
  match field with
  | "value" =>
    if obj.category == GetStateCategory.TEMPERATURES then
      some
        { name := obj.label, type := "number", role := "value.temperature"
          read := true, write := false
          smartName := if obj.active then
              some { de := obj.label, en := obj.label, smartType := "THERMOSTAT" }
            else none
          unit := some ("°" ++ obj.unit) }
    else
      some
        { name := obj.label, type := "number", role := "value"
          read := true, write := false, smartName := none, unit := none }
  | "category" =>
    some { name := obj.label, type := "string", role := "text"
           read := true, write := false, smartName := none, unit := none }
  | "label" =>
    some { name := obj.label, type := "string", role := "text"
           read := true, write := false, smartName := none, unit := none }
  | "unit" =>
    some { name := obj.label, type := "string", role := "text"
           read := true, write := false, smartName := none, unit := none }
  | "displayValue" =>
    some { name := obj.label, type := "string", role := "text"
           read := true, write := false, smartName := none, unit := none }
  | "active" =>
    some { name := obj.label, type := "boolean", role := "indicator"
           read := true, write := false, smartName := none, unit := none }
  | _ => none

/-- setRelayDataObject(obj) (main.ts lines 541-615): the auto and onOff
switch states, followed by exactly one of the dosageTimer or timer states,
depending on whether the relay's physical id is a dosage control. -/
def setRelayDataObject (sd : GetStateData) (obj : GetStateDataObject) : List CreatedState :=
  let isL := isLight obj.label
  let relayId := (if obj.category == GetStateCategory.EXTERNAL_RELAYS then 8 else 0) +
    obj.categoryId
  let isDosageRelay := sd.isDosageControl relayId
  let commonAuto : StateCommon :=
    { name := obj.label, type := "boolean", role := "switch.mode.auto"
      read := true, write := true
      smartName := if obj.active then
          some { de := obj.label ++ " auto", en := obj.label ++ " auto"
                 smartType := if isL then "LIGHT" else "SWITCH" }
        else none
      unit := none }
  let commonOnOff : StateCommon :=
    { name := obj.label, type := "boolean"
      role := if isL then "switch.light" else "switch"
      read := true, write := !isDosageRelay
      smartName := if obj.active && !isDosageRelay then
          some { de := obj.label, en := obj.label
                 smartType := if isL then "LIGHT" else "SWITCH" }
        else none
      unit := none }
  let timerCommon : StateCommon :=
    { name := obj.label, type := "number", role := "value.interval"
      read := false, write := true, smartName := none, unit := none }
  [{ sub := "auto", common := commonAuto }, { sub := "onOff", common := commonOnOff }] ++
    (if isDosageRelay then [{ sub := "dosageTimer", common := timerCommon }]
     else [{ sub := "timer", common := timerCommon }])

/-- setDataObjectNotExists(obj) (main.ts lines 473-539): the per-field states
from the Object.keys switch, then the relay states when the object is a
relay (internal bank, or external bank with external relays enabled). -/
def setDataObjectNotExists (sd : GetStateData) (obj : GetStateDataObject) : List CreatedState :=
  objectKeys.filterMap
    (fun f => (fieldCommon obj f).map (fun c => { sub := f, common := c })) ++
  (if relayWriteGuard sd obj then setRelayDataObject sd obj else [])

/-! Store model for rename propagation (updateObjectCommonName). -/

/-- Address of a stored ioBroker object under the adapter namespace. -/
inductive StorePath where
  | channel (category : String) (categoryId : Nat)
  | objState (category : String) (categoryId : Nat) (sub : String)
deriving DecidableEq

/-- Whether the path is a state directly below the given channel, as
enumerated by getStatesOfAsync. -/
def StorePath.isStateOf (p : StorePath) (category : String) (categoryId : Nat) : Bool :=
  match p with
  | StorePath.objState c cid _ => c == category && cid == categoryId
  | _ => false

/-- A stored ioBroker object: its address and its common.name. -/
structure StoreEntry where
  path : StorePath
  name : String
deriving DecidableEq

/-- updateObjectCommonName(obj) (main.ts lines 654-668): overwrite common.name
with the object's label on the channel object (if present) and on every
state below it; no entry is created or removed. -/
def updateObjectCommonName (store : List StoreEntry) (obj : GetStateDataObject) :
    List StoreEntry :=
  store.map (fun e =>
    if e.path == StorePath.channel obj.category obj.categoryId ||
        e.path.isStateOf obj.category obj.categoryId then
      { e with name := obj.label }
    else e)

/-- Whether the poll step emitted a store-update action for the object. -/
def emitted (r : Except String (Option ObjAction × List Nat)) : Bool :=
  match r with
  | Except.ok (some _, _) => true
  | _ => false

/-- Whether the poll step triggered a rename propagation for the object. -/
def renameEmitted (r : Except String (Option ObjAction × List Nat)) : Bool :=
  match r with
  | Except.ok (some a, _) => a.renamed
  | _ => false

/-! Concrete sample data used by witnesses and counterexamples. -/

/-- Sys info sample: no scalar pairs, everything disabled. -/
def sysInfo0 : GetStateDataSysInfo :=
  { pairs := [], dosageControl := 0, phPlusDosageEnabled := false
    phMinusDosageEnabled := false, chlorineDosageEnabled := false
    electrolysis := false, extRelaysEnabled := false }

/-- Sample relay data object as reported in the baseline snapshot. -/
def pumpPrev : GetStateDataObject :=
  { id := 9, category := "relays", categoryId := 1, label := "Pump"
    unit := "C", displayValue := "1", value := 1, active := true }

/-- Baseline snapshot containing only the sample relay. -/
def sdPump : GetStateData :=
  { sysInfo := sysInfo0, objects := [pumpPrev]
    chlorineDosageControlId := 36, phMinusDosageControlId := 37
    phPlusDosageControlId := 38 }

/-- The sample relay with only its unit changed. -/
def pumpUnitChanged : GetStateDataObject := { pumpPrev with unit := "F" }

/-- The sample relay with only its label changed. -/
def pumpRenamed : GetStateDataObject := { pumpPrev with label := "Main Pump" }

/-- The sample relay with only its value changed. -/
def pumpValueChanged : GetStateDataObject := { pumpPrev with value := 2 }

/-- A data object with id 0, as the force-update guard sees it. -/
def zeroRelay : GetStateDataObject :=
  { id := 0, category := "relays", categoryId := 0, label := "Aux"
    unit := "", displayValue := "0", value := 0, active := true }

/-- Baseline snapshot containing only the id-0 object. -/
def sdZero : GetStateData :=
  { sysInfo := sysInfo0, objects := [zeroRelay]
    chlorineDosageControlId := 36, phMinusDosageControlId := 37
    phPlusDosageControlId := 38 }

/-- Stored ioBroker object resolving to the sample relay. -/
def ioPump : IoObject := { nativeId := 9, nativeLabel := "Pump" }

/-- A companion onOff state reading true. -/
def onOffReadTrue : IoState := { val := StateVal.boolVal true, ack := false }

/-- A small object store holding the sample relay's channel, two of its
states, and an unrelated channel. -/
def pumpStore : List StoreEntry :=
  [ { path := StorePath.channel "relays" 1, name := "Pump" }
  , { path := StorePath.objState "relays" 1 "value", name := "Pump" }
  , { path := StorePath.objState "relays" 1 "label", name := "Pump" }
  , { path := StorePath.channel "temperatures" 0, name := "Temp" } ]

/-! Helper lemmas. -/

/-- Array.indexOf finds an index exactly when the element occurs in the
array. -/
theorem jsIndexOf_isSome_eq (l : List Nat) (x : Nat) :
    (jsIndexOf l x).isSome = l.contains x := by
  induction l with
  | nil => rfl
  | cons y ys ih =>
    by_cases h : y = x
    · simp [jsIndexOf, List.contains_cons, h]
    · simp [jsIndexOf, List.contains_cons, h, Ne.symm h, ih]

/-- Unfolding of the per-object poll step when the object has a baseline
entry. -/
theorem pollObject_spec (b : Bool) (sd : GetStateData) (force : List Nat)
    (obj p : GetStateDataObject) (hprev : sd.getDataObject obj.id = some p) :
    pollObject b sd force obj =
      (if !b || (jsIndexOf force obj.id).isSome || (p.value != obj.value) then
        Except.ok (some
          { objId := obj.id, renamed := p.label != obj.label
            writes := setDataState sd obj },
          match jsIndexOf force obj.id with
          | some i => if ((force.get? i).getD 0) != 0 then force.eraseIdx i else force
          | none => force)
      else Except.ok (none, force)) := by
  unfold pollObject
  rw [hprev]

/-! Claim theorems. -/

/-- C10 (confirmed): relayToggleAuto reads the companion onOff state as its
very first step; when that read yields no state, the intent fails with an
error, no device command is transmitted and the force-update list is
unchanged — for every store object (resolved or not), every intended value
(including true, for which the onOff value is never consulted) and every
transport outcome. -/
theorem c10_theorem (sd : GetStateData) (force : List Nat)
    (storeObj : Option IoObject) (v : StateVal) (tr : CallOutcome) :
    relayToggleAuto sd force none storeObj v tr =
      { result := Except.error "Cannot get onOff state to toggle"
        commands := [], forceAfter := force } := rfl

/-- C6 (confirmed): once the onOff read and identity resolution succeed, an
auto intent with a truthy value transmits exactly the set-auto command,
independent of the current onOff value; with a falsy value it transmits
exactly set-on when the onOff read is truthy and exactly set-off
otherwise. -/
theorem c6_theorem (sd : GetStateData) (force : List Nat) (onOff : IoState)
    (io : IoObject) (v : StateVal) (tr : CallOutcome) (gso : GetStateDataObject)
    (hres : sd.getDataObject io.nativeId = some gso) :
    (relayToggleAuto sd force (some onOff) (some io) v tr).commands =
      [if v.truthy then DeviceCommand.setAuto gso
       else if onOff.val.truthy then DeviceCommand.setOn gso
       else DeviceCommand.setOff gso] := by
  simp only [relayToggleAuto, hres]
  cases tr <;> rfl

/-- Witness for C6 at a concrete input: intended value true yields exactly the
set-auto command. -/
theorem c6_witness :
    (relayToggleAuto sdPump [] (some onOffReadTrue) (some ioPump)
        (StateVal.boolVal true) (CallOutcome.promised (Except.ok 1))).commands =
      [DeviceCommand.setAuto pumpPrev] :=
  (c6_theorem sdPump [] onOffReadTrue ioPump (StateVal.boolVal true)
    (CallOutcome.promised (Except.ok 1)) pumpPrev rfl).trans rfl

/-- C5 counterexample: an auto intent whose identity resolves but whose CGI
promise rejects.  The promise is returned from inside try/catch without
await, so the rejection reaches the caller of the handler — the transport
failure does propagate — although the id was pushed beforehand. -/
theorem c5_counterexample :
    relayToggleAuto sdPump [] (some onOffReadTrue) (some ioPump)
        (StateVal.boolVal true)
        (CallOutcome.promised (Except.error "connect ECONNREFUSED")) =
      { result := Except.error "connect ECONNREFUSED"
        commands := [DeviceCommand.setAuto pumpPrev], forceAfter := [9] } := rfl

/-- C5 (corrected): whenever identity resolution succeeds, every handler
pushes the target id onto the force-update list before returning,
regardless of the transport outcome; the onOff, dosage-timer and
relay-timer handlers catch transport failures (they await inside
try/catch) and complete normally, and the auto handler catches only a
synchronous throw (returning -1) while a rejected transport promise is
passed through to its caller. -/
theorem c5_theorem (sd : GetStateData) (force : List Nat) (onOff : IoState)
    (io : IoObject) (v : StateVal) (r : Except String Int) (m : String)
    (gso : GetStateDataObject) (hres : sd.getDataObject io.nativeId = some gso) :
    ((relayToggleAuto sd force (some onOff) (some io) v
          (CallOutcome.promised r)).forceAfter = force ++ [gso.id] ∧
      (relayToggleAuto sd force (some onOff) (some io) v
          (CallOutcome.thrown m)).forceAfter = force ++ [gso.id] ∧
      (relayToggleAuto sd force (some onOff) (some io) v
          (CallOutcome.thrown m)).result = Except.ok (-1) ∧
      (relayToggleAuto sd force (some onOff) (some io) v
          (CallOutcome.promised r)).result = r) ∧
    ((relayToggleOnOff sd force (some io) v
          (CallOutcome.promised r)).forceAfter = force ++ [gso.id] ∧
      (relayToggleOnOff sd force (some io) v (CallOutcome.promised r)).result =
        Except.ok 0 ∧
      (relayToggleOnOff sd force (some io) v (CallOutcome.thrown m)).result =
        Except.ok 0) ∧
    ((setDosageTimer sd force (some io) v
          (CallOutcome.promised r)).forceAfter = force ++ [gso.id] ∧
      (setDosageTimer sd force (some io) v (CallOutcome.promised r)).result =
        Except.ok 0 ∧
      (setDosageTimer sd force (some io) v (CallOutcome.thrown m)).result =
        Except.ok 0) ∧
    ((setRelayTimer sd force (some io) v
          (CallOutcome.promised r)).forceAfter = force ++ [gso.id] ∧
      (setRelayTimer sd force (some io) v
          (CallOutcome.thrown m)).forceAfter = force ++ [gso.id] ∧
      (setRelayTimer sd force (some io) v (CallOutcome.promised r)).result =
        Except.ok 0 ∧
      (setRelayTimer sd force (some io) v (CallOutcome.thrown m)).result =
        Except.ok 0) := by
  refine ⟨⟨?_, ?_, ?_, ?_⟩, ⟨?_, ?_, ?_⟩, ⟨?_, ?_, ?_⟩, ⟨?_, ?_, ?_, ?_⟩⟩ <;>
    simp only [relayToggleAuto, relayToggleOnOff, setDosageTimer, setRelayTimer, hres]

/-- Witness for C5 at a concrete input: a failing onOff transport call is
absorbed while the id is still pushed. -/
theorem c5_witness :
    (relayToggleOnOff sdPump [] (some ioPump) (StateVal.boolVal false)
        (CallOutcome.promised (Except.error "timeout"))).result = Except.ok 0 ∧
    (relayToggleOnOff sdPump [] (some ioPump) (StateVal.boolVal false)
        (CallOutcome.promised (Except.error "timeout"))).forceAfter = [9] := by
  have h := c5_theorem sdPump [] onOffReadTrue ioPump (StateVal.boolVal false)
    (Except.error "timeout") "boom" pumpPrev rfl
  exact ⟨h.2.1.2.1, h.2.1.1.trans rfl⟩

/-- The physical channel id resolved by setDosageTimer (main.ts lines
298-299): categoryId plus 8 on the external relay bank, else categoryId. -/
def resolvedDosageRelayId (gso : GetStateDataObject) : Nat :=
  gso.categoryId + (if gso.category == GetStateCategory.EXTERNAL_RELAYS then 8 else 0)

/-- C7 (confirmed): for a dosage-timer intent with successful identity
resolution, the handler always completes without error; the intent is
routed to exactly the chlorine, pH-minus or pH-plus dosage command whose
configured id equals the resolved channel id (the configured ids being
pairwise distinct), and no device command is issued when the resolved id
matches none of the three. -/
theorem c7_theorem (sd : GetStateData) (force : List Nat) (io : IoObject)
    (v : StateVal) (tr : CallOutcome) (gso : GetStateDataObject)
    (hres : sd.getDataObject io.nativeId = some gso)
    (h1 : sd.chlorineDosageControlId ≠ sd.phMinusDosageControlId)
    (h2 : sd.chlorineDosageControlId ≠ sd.phPlusDosageControlId)
    (h3 : sd.phMinusDosageControlId ≠ sd.phPlusDosageControlId) :
    (setDosageTimer sd force (some io) v tr).result = Except.ok 0 ∧
    (resolvedDosageRelayId gso = sd.chlorineDosageControlId →
      (setDosageTimer sd force (some io) v tr).commands =
        [DeviceCommand.setChlorineDosage v]) ∧
    (resolvedDosageRelayId gso = sd.phMinusDosageControlId →
      (setDosageTimer sd force (some io) v tr).commands =
        [DeviceCommand.setPhMinusDosage v]) ∧
    (resolvedDosageRelayId gso = sd.phPlusDosageControlId →
      (setDosageTimer sd force (some io) v tr).commands =
        [DeviceCommand.setPhPlusDosage v]) ∧
    (resolvedDosageRelayId gso ≠ sd.chlorineDosageControlId ∧
      resolvedDosageRelayId gso ≠ sd.phMinusDosageControlId ∧
      resolvedDosageRelayId gso ≠ sd.phPlusDosageControlId →
      (setDosageTimer sd force (some io) v tr).commands = []) := by
  refine ⟨?_, ?_, ?_, ?_, ?_⟩
  · simp only [setDosageTimer, hres]
  · intro h
    simp [resolvedDosageRelayId] at h
    simp only [setDosageTimer, hres]
    simp [h]
  · intro h
    simp [resolvedDosageRelayId] at h
    simp only [setDosageTimer, hres]
    simp [h, Ne.symm h1]
  · intro h
    simp [resolvedDosageRelayId] at h
    simp only [setDosageTimer, hres]
    simp [h, Ne.symm h2, Ne.symm h3]
  · intro h
    obtain ⟨hc, hm, hp⟩ := h
    simp [resolvedDosageRelayId] at hc hm hp
    simp only [setDosageTimer, hres]
    simp [hc, hm, hp]

/-- Witness for C7 at a concrete input: the sample relay resolves to channel
id 1, matching none of the configured dosage ids 36, 37, 38, so no command
is issued and the handler completes without error. -/
theorem c7_witness :
    (setDosageTimer sdPump [] (some ioPump) (StateVal.numVal 30)
        (CallOutcome.promised (Except.ok 1))).commands = [] ∧
    (setDosageTimer sdPump [] (some ioPump) (StateVal.numVal 30)
        (CallOutcome.promised (Except.ok 1))).result = Except.ok 0 := by
  have h := c7_theorem sdPump [] ioPump (StateVal.numVal 30)
    (CallOutcome.promised (Except.ok 1)) pumpPrev rfl
    (by decide) (by decide) (by decide)
  exact ⟨h.2.2.2.2 ⟨by decide, by decide, by decide⟩, h.1⟩

/-- C1 counterexample: on a bootstrapped cycle with the object not forced and
its value field unchanged, a change of the unit field alone emits no plan
entry, although the claim requires one. -/
theorem c1_counterexample :
    pumpPrev.unit ≠ pumpUnitChanged.unit ∧
    pumpPrev.value = pumpUnitChanged.value ∧
    sdPump.getDataObject pumpUnitChanged.id = some pumpPrev ∧
    pollObject true sdPump [] pumpUnitChanged = Except.ok (none, []) := by decide

/-- C1 (corrected): with the object present in the baseline snapshot, a
store-update plan entry is emitted exactly when the adapter is not
bootstrapped, or the force-update list contains the object's id, or the
baseline value field differs from the current one; a difference in one of
the other tracked fields alone does not emit an entry (those fields are
only written once an entry is emitted for another reason). -/
theorem c1_theorem (b : Bool) (sd : GetStateData) (force : List Nat)
    (obj p : GetStateDataObject) (hprev : sd.getDataObject obj.id = some p) :
    emitted (pollObject b sd force obj) =
      (!b || force.contains obj.id || (p.value != obj.value)) := by
  rw [pollObject_spec b sd force obj p hprev, ← jsIndexOf_isSome_eq]
  cases hc : (!b || (jsIndexOf force obj.id).isSome || (p.value != obj.value)) with
  | false => simp [hc, emitted]
  | true => simp [hc, emitted]

/-- Witness for C1: before bootstrap, the entry is emitted. -/
theorem c1_witness : emitted (pollObject false sdPump [] pumpPrev) = true :=
  (c1_theorem false sdPump [] pumpPrev pumpPrev rfl).trans (by decide)

/-- C2 counterexample: a bootstrapped cycle in which only the label changed
(value unchanged, id not forced) performs no rename propagation at all,
although the claim requires one. -/
theorem c2_counterexample :
    pumpPrev.label ≠ pumpRenamed.label ∧
    pumpPrev.value = pumpRenamed.value ∧
    sdPump.getDataObject pumpRenamed.id = some pumpPrev ∧
    pollObject true sdPump [] pumpRenamed = Except.ok (none, []) := by decide

/-- C2 (corrected): rename propagation runs exactly when the object's update
condition fires (pre-bootstrap, forced, or value changed) and the label
differs from the baseline; when it runs, updateObjectCommonName overwrites
common.name with the new label on the object's channel entry and on every
state entry below it, leaves every other store entry unchanged, and
neither creates nor removes any entry. -/
theorem c2_theorem (b : Bool) (sd : GetStateData) (force : List Nat)
    (obj p : GetStateDataObject) (store : List StoreEntry)
    (hprev : sd.getDataObject obj.id = some p) :
    (renameEmitted (pollObject b sd force obj) =
      ((!b || force.contains obj.id || (p.value != obj.value)) &&
        (p.label != obj.label))) ∧
    ((updateObjectCommonName store obj).length = store.length) ∧
    (∀ i e, store.get? i = some e →
      (updateObjectCommonName store obj).get? i =
        some (if e.path == StorePath.channel obj.category obj.categoryId ||
            e.path.isStateOf obj.category obj.categoryId then
          { e with name := obj.label } else e)) := by
  refine ⟨?_, ?_, ?_⟩
  · rw [pollObject_spec b sd force obj p hprev, ← jsIndexOf_isSome_eq]
    cases hc : (!b || (jsIndexOf force obj.id).isSome || (p.value != obj.value)) with
    | false => simp [hc, renameEmitted]
    | true => simp [hc, renameEmitted]
  · simp [updateObjectCommonName]
  · intro i e hi
    unfold updateObjectCommonName
    rw [List.get?_map, hi]
    rfl

/-- Witness for C2: a forced object with a changed label triggers the rename,
and the store rename touches no entry count. -/
theorem c2_witness :
    renameEmitted (pollObject true sdPump [9] pumpRenamed) = true ∧
    (updateObjectCommonName pumpStore pumpRenamed).length = pumpStore.length := by
  have h := c2_theorem true sdPump [9] pumpRenamed pumpPrev pumpStore rfl
  exact ⟨h.1.trans (by decide), h.2.1⟩

/-- C3 counterexample: when the value field changed, the cycle writes every
tracked field of the object, including the unchanged unit field — the
claimed per-field framing does not hold. -/
theorem c3_counterexample :
    pumpPrev.unit = pumpValueChanged.unit ∧
    pumpPrev.value ≠ pumpValueChanged.value ∧
    sdPump.getDataObject pumpValueChanged.id = some pumpPrev ∧
    (match pollObject true sdPump [] pumpValueChanged with
     | Except.ok (some a, _) =>
       a.writes.contains (StoreWrite.objField "relays" 1 "unit" (FieldVal.str "C"))
     | _ => false) = true := by decide

/-- C3 (corrected): framing holds per object, not per field.  On a
bootstrapped cycle with the object present in the baseline and not forced:
if the value field is unchanged, no store write at all is issued for the
object; if the value field changed, setDataState writes all six tracked
fields (changed or not). -/
theorem c3_theorem (sd : GetStateData) (force : List Nat)
    (obj p : GetStateDataObject)
    (hforce : force.contains obj.id = false)
    (hprev : sd.getDataObject obj.id = some p) :
    (p.value = obj.value → pollObject true sd force obj = Except.ok (none, force)) ∧
    (p.value ≠ obj.value →
      pollObject true sd force obj =
        Except.ok (some { objId := obj.id, renamed := p.label != obj.label
                          writes := setDataState sd obj }, force)) ∧
    (∀ f, f ∈ objectStateFields →
      ∃ v, StoreWrite.objField obj.category obj.categoryId f v ∈ setDataState sd obj) := by
  have hidx : jsIndexOf force obj.id = none := by
    cases ho : jsIndexOf force obj.id with
    | none => rfl
    | some i =>
      have hs := jsIndexOf_isSome_eq force obj.id
      rw [ho, hforce] at hs
      exact Bool.noConfusion hs
  refine ⟨?_, ?_, ?_⟩
  · intro hv
    rw [pollObject_spec true sd force obj p hprev, hidx]
    simp [hv]
  · intro hv
    rw [pollObject_spec true sd force obj p hprev, hidx]
    simp [hv]
  · intro f hf
    fin_cases hf
    · exact ⟨FieldVal.num obj.value,
        by simp [setDataState, objectKeys, objectStateFields, GetStateDataObject.fieldVal]⟩
    · exact ⟨FieldVal.str obj.category,
        by simp [setDataState, objectKeys, objectStateFields, GetStateDataObject.fieldVal]⟩
    · exact ⟨FieldVal.str obj.label,
        by simp [setDataState, objectKeys, objectStateFields, GetStateDataObject.fieldVal]⟩
    · exact ⟨FieldVal.str obj.unit,
        by simp [setDataState, objectKeys, objectStateFields, GetStateDataObject.fieldVal]⟩
    · exact ⟨FieldVal.str obj.displayValue,
        by simp [setDataState, objectKeys, objectStateFields, GetStateDataObject.fieldVal]⟩
    · exact ⟨FieldVal.boolean obj.active,
        by simp [setDataState, objectKeys, objectStateFields, GetStateDataObject.fieldVal]⟩

/-- Witness for C3: the unchanged sample object produces no writes. -/
theorem c3_witness : pollObject true sdPump [] pumpPrev = Except.ok (none, []) :=
  (c3_theorem sdPump [] pumpPrev pumpPrev rfl rfl).1 rfl

/-- C4 (code bug): with id 0 forced and the snapshot identical to the
baseline, the cycle emits the forced update for object 0 but the id 0
stays in the force-update list at the end of the cycle, because the
removal guard tests the truthiness of the stored id itself (falsy for 0)
instead of the indexOf result; a nonzero forced id is removed as the claim
states. -/
theorem c4_theorem :
    sdZero.getDataObject 0 = some zeroRelay ∧
    pollCycle true sdZero [0] sdZero =
      Except.ok
        { sysWrites := [], advancedWrites := []
          objActions := [{ objId := 0, renamed := false
                           writes := setDataState sdZero zeroRelay }]
          forceAfter := [0], newBaseline := sdZero } ∧
    (setDataState sdZero zeroRelay).length = 8 ∧
    pollObjects true sdPump [9] [pumpPrev] =
      Except.ok ([{ objId := 9, renamed := false
                    writes := setDataState sdPump pumpPrev }], []) := by decide

/-- C9 (confirmed): a scalar sys-info write is emitted for a key/value pair
exactly when the pair is in the current snapshot and either the adapter is
not bootstrapped or the baseline lookup of the key differs from the value;
the four derived booleans are emitted as exactly one batch of four writes
when the dosage-control bitmask changed or pre-bootstrap, and are all
skipped otherwise. -/
theorem c9_theorem (b : Bool) (prev cur : GetStateDataSysInfo) :
    (∀ k v, StoreWrite.sysInfoState k v ∈ sysInfoWrites b prev cur ↔
      ((k, v) ∈ cur.pairs ∧ (b = false ∨ prev.lookup k ≠ some v))) ∧
    (updateAdvancedSysInfoStates b prev cur =
        [StoreWrite.advancedSysInfo "phPlusDosageEnabled" cur.phPlusDosageEnabled,
         StoreWrite.advancedSysInfo "phMinusDosageEnabled" cur.phMinusDosageEnabled,
         StoreWrite.advancedSysInfo "chlorineDosageEnabled" cur.chlorineDosageEnabled,
         StoreWrite.advancedSysInfo "electrolysis" cur.electrolysis] ↔
      (b = false ∨ cur.dosageControl ≠ prev.dosageControl)) ∧
    (updateAdvancedSysInfoStates b prev cur = [] ↔
      (b = true ∧ cur.dosageControl = prev.dosageControl)) := by
  refine ⟨?_, ?_, ?_⟩
  · intro k v
    unfold sysInfoWrites
    rw [List.mem_filterMap]
    constructor
    · rintro ⟨⟨k1, v1⟩, hmem, hf⟩
      split at hf
      · rename_i hcond
        injection hf with hf1
        injection hf1 with hk hv
        subst hk
        subst hv
        exact ⟨hmem, by simpa using hcond⟩
      · exact absurd hf (by simp)
    · rintro ⟨hmem, hcond⟩
      refine ⟨(k, v), hmem, ?_⟩
      rcases hcond with hb | hne
      · simp [hb]
      · simp [hne]
  · unfold updateAdvancedSysInfoStates
    cases hc : (!b || (cur.dosageControl != prev.dosageControl)) with
    | false =>
      obtain ⟨hb, hdq⟩ : b = true ∧ cur.dosageControl = prev.dosageControl := by
        simpa using hc
      simp [hb, hdq]
    | true =>
      constructor
      · intro _
        simpa using hc
      · intro _
        simp
  · unfold updateAdvancedSysInfoStates
    cases hc : (!b || (cur.dosageControl != prev.dosageControl)) with
    | false =>
      obtain ⟨hb, hdq⟩ : b = true ∧ cur.dosageControl = prev.dosageControl := by
        simpa using hc
      simp [hb, hdq]
    | true =>
      constructor
      · intro he
        exact absurd he (by simp)
      · intro he
        have hx : b = false ∨ cur.dosageControl ≠ prev.dosageControl := by
          simpa using hc
        rcases hx with hb | hne
        · exact absurd he.1 (by simp [hb])
        · exact absurd he.2 hne

/-- Witness for C9: pre-bootstrap the four derived booleans are emitted as
one batch. -/
theorem c9_witness :
    updateAdvancedSysInfoStates false sysInfo0 sysInfo0 =
      [StoreWrite.advancedSysInfo "phPlusDosageEnabled" false,
       StoreWrite.advancedSysInfo "phMinusDosageEnabled" false,
       StoreWrite.advancedSysInfo "chlorineDosageEnabled" false,
       StoreWrite.advancedSysInfo "electrolysis" false] :=
  ((c9_theorem false sysInfo0 sysInfo0).2.1).mpr (Or.inl rfl)

/-- C8 (confirmed): for every relay-class object processed by the
materializer (relayWriteGuard: category relays, or external relays with
the external bank enabled), setRelayDataObject creates an onOff entity
that is writable exactly when the relay's resolved id is not a dosage
control; it creates exactly one of a dosageTimer entity (dosage relays) or
a generic timer entity (others), both write-only numeric with the
value.interval role; and the light/switch classification of the onOff role
and of the auto smart metadata is decided by the isLight regex constant
(light|bulb|licht|leucht, case-insensitive) on the relay's label. -/
theorem c8_theorem (sd : GetStateData) (obj : GetStateDataObject)
    (h : relayWriteGuard sd obj = true) :
    (((setRelayDataObject sd obj).find? (fun e => e.sub == "onOff")).map
        (fun e => e.common.write) =
      some (!sd.isDosageControl
        ((if obj.category == GetStateCategory.EXTERNAL_RELAYS then 8 else 0) +
          obj.categoryId))) ∧
    (((setRelayDataObject sd obj).find? (fun e => e.sub == "onOff")).map
        (fun e => e.common.role) =
      some (if isLight obj.label then "switch.light" else "switch")) ∧
    (sd.isDosageControl
        ((if obj.category == GetStateCategory.EXTERNAL_RELAYS then 8 else 0) +
          obj.categoryId) = true →
      (setRelayDataObject sd obj).find? (fun e => e.sub == "dosageTimer") =
        some { sub := "dosageTimer"
               common := { name := obj.label, type := "number", role := "value.interval"
                           read := false, write := true, smartName := none, unit := none } } ∧
      (setRelayDataObject sd obj).find? (fun e => e.sub == "timer") = none) ∧
    (sd.isDosageControl
        ((if obj.category == GetStateCategory.EXTERNAL_RELAYS then 8 else 0) +
          obj.categoryId) = false →
      (setRelayDataObject sd obj).find? (fun e => e.sub == "timer") =
        some { sub := "timer"
               common := { name := obj.label, type := "number", role := "value.interval"
                           read := false, write := true, smartName := none, unit := none } } ∧
      (setRelayDataObject sd obj).find? (fun e => e.sub == "dosageTimer") = none) ∧
    (((setRelayDataObject sd obj).find? (fun e => e.sub == "auto")).map
        (fun e => e.common.smartName) =
      some (if obj.active then
        some { de := obj.label ++ " auto", en := obj.label ++ " auto"
               smartType := if isLight obj.label then "LIGHT" else "SWITCH" }
      else none)) := by
  cases hd : sd.isDosageControl
      ((if obj.category == GetStateCategory.EXTERNAL_RELAYS then 8 else 0) +
        obj.categoryId) with
  | false =>
    have hd2 : sd.isDosageControl
        ((if obj.category = GetStateCategory.EXTERNAL_RELAYS then 8 else 0) +
          obj.categoryId) = false := by simpa using hd
    refine ⟨?_, ?_, ?_, ?_, ?_⟩
    · simp [setRelayDataObject, hd2, List.find?]
    · simp [setRelayDataObject, hd2, List.find?]
    · intro hh
      exact Bool.noConfusion hh
    · intro _
      constructor
      · simp [setRelayDataObject, hd2, List.find?]
      · simp [setRelayDataObject, hd2, List.find?]
    · simp [setRelayDataObject, hd2, List.find?]
  | true =>
    have hd2 : sd.isDosageControl
        ((if obj.category = GetStateCategory.EXTERNAL_RELAYS then 8 else 0) +
          obj.categoryId) = true := by simpa using hd
    refine ⟨?_, ?_, ?_, ?_, ?_⟩
    · simp [setRelayDataObject, hd2, List.find?]
    · simp [setRelayDataObject, hd2, List.find?]
    · intro _
      constructor
      · simp [setRelayDataObject, hd2, List.find?]
      · simp [setRelayDataObject, hd2, List.find?]
    · intro hh
      exact Bool.noConfusion hh
    · simp [setRelayDataObject, hd2, List.find?]

/-- Witness for C8: the sample relay (id 1, not a dosage control, label not
matching the light regex) gets a writable onOff with role switch and a
generic timer entity. -/
theorem c8_witness :
    ((setRelayDataObject sdPump pumpPrev).find? (fun e => e.sub == "onOff")).map
        (fun e => e.common.write) = some true ∧
    ((setRelayDataObject sdPump pumpPrev).find? (fun e => e.sub == "onOff")).map
        (fun e => e.common.role) = some "switch" ∧
    (setRelayDataObject sdPump pumpPrev).find? (fun e => e.sub == "timer") =
      some { sub := "timer"
             common := { name := "Pump", type := "number", role := "value.interval"
                         read := false, write := true, smartName := none, unit := none } } := by
  have h := c8_theorem sdPump pumpPrev (by decide)
  exact ⟨h.1.trans (by decide), h.2.1.trans (by decide),
    (h.2.2.2.1 (by decide)).1.trans (by decide)⟩

end ProconIp
